import Mathlib

/-!
A shallow embedding of the arduino-playtune engine (Playtune.cpp), for checking
its natural-language specification.  Machine integers are modelled as `Nat`
with explicit reduction mod 2^8 / 2^16 / 2^32 at the points where the C code
performs byte, `unsigned` (16-bit on AVR) or `unsigned long` (32-bit)
arithmetic.  Global mutable state is modelled as an explicit `Engine` record
threaded through the operations; the per-timer registers (prescaler bits, OCR
value, interrupt-enable mask, output pin level) are modelled as functions from
the timer number.
-/

/-- truncation to a C `byte` (8-bit). -/
def u8 (x : Nat) : Nat := x % 256

/-- truncation to an AVR C `unsigned int` (16-bit). -/
def u16 (x : Nat) : Nat := x % 65536

/-- truncation to an AVR C `unsigned long` (32-bit). -/
def u32 (x : Nat) : Nat := x % 4294967296

/-- Computes `x - 1` in 32-bit unsigned C arithmetic (wraps at 0). -/
def u32sub1 (x : Nat) : Nat := (x + 4294967295) % 4294967296

/-- The table `tune_frequencies2_PGM` of midi note frequencies * 2
(Playtune.cpp lines 362-375). -/
def tune_frequencies2_PGM : List Nat :=
  [ 16, 17, 18, 19, 21, 22, 23, 24, 26, 28, 29, 31, 33, 35, 37, 39, 41,
    44, 46, 49, 52, 55, 58, 62, 65, 69, 73, 78, 82, 87, 92, 98, 104, 110,
    117, 123, 131, 139, 147, 156, 165, 175, 185, 196, 208, 220, 233,
    247, 262, 277, 294, 311, 330, 349, 370, 392, 415, 440, 466, 494,
    523, 554, 587, 622, 659, 698, 740, 784, 831, 880, 932, 988, 1047,
    1109, 1175, 1245, 1319, 1397, 1480, 1568, 1661, 1760, 1865, 1976,
    2093, 2217, 2349, 2489, 2637, 2794, 2960, 3136, 3322, 3520, 3729,
    3951, 4186, 4435, 4699, 4978, 5274, 5588, 5920, 6272, 6645, 7040,
    7459, 7902, 8372, 8870, 9397, 9956, 10548, 11175, 11840, 12544,
    13290, 14080, 14917, 15804, 16744, 17740, 18795, 19912, 21096,
    22351, 23680, 25088 ]

/-- Reads `pgm_read_word(tune_frequencies2_PGM + note)`. -/
def freqOf (note : Nat) : Nat := tune_frequencies2_PGM.getD note 0

/-- A compile-time platform: the timer allocation table
`tune_pin_to_timer_PGM`, whether the chip is the ATmega32U4 (whose timer 4 is
the 10-bit timer treated as 8-bit), and the clock frequency `F_CPU`.
`AVAILABLE_TIMERS` is `timers.length`. -/
structure Platform where
  timers : List Nat
  m32u4 : Bool
  fcpu : Nat
deriving Repr, DecidableEq

/-- ATmega168/328 (Uno, Nano): `AVAILABLE_TIMERS 3`, table `{1, 2, 0}`. -/
def unoPlatform : Platform := ⟨[1, 2, 0], false, 16000000⟩

/-- ATmega1280/2560: `AVAILABLE_TIMERS 6`, table `{1, 2, 3, 4, 5, 0}`. -/
def megaPlatform : Platform := ⟨[1, 2, 3, 4, 5, 0], false, 16000000⟩

/-- ATmega32U4 (Micro, Leonardo): `AVAILABLE_TIMERS 4`, table `{1, 0, 3, 4}`. -/
def m32u4Platform : Platform := ⟨[1, 0, 3, 4], true, 16000000⟩

/-- The test `timer_num == 0 || timer_num == 2 || (ATmega32U4 && timer_num == 4)`
that routes a note to the 8-bit code path of `tune_playnote`. -/
def is8bitClass (p : Platform) (t : Nat) : Bool :=
  t == 0 || t == 2 || (p.m32u4 && t == 4)

/-- The clock-dependent floor `F_CPU <= 8000000UL ? 12 : 24` below which the
8-bit path of `tune_playnote` returns without configuring anything. -/
def eightBitFloor (fcpu : Nat) : Nat := if fcpu ≤ 8000000 then 12 else 24

/-- The prescaler cascade of `tune_playnote` for the 8-bit-class timers
(Playtune.cpp lines 509-535), translated branch for branch.  `ocr` values are
computed in C 32-bit unsigned arithmetic (`u32sub1`).  The result is
`(divisor, ocr, prescalarbits)` where `divisor` is the divisor used in the
`ocr` expression of the branch that was finally taken. -/
def cascade8 (t fcpu f2 : Nat) : Nat × Nat × Nat :=
  let ocr := u32sub1 (fcpu / f2)
  if ocr ≤ 255 then (1, ocr, 0b001)
  else
    let ocr := u32sub1 (fcpu / f2 / 8)
    let pb := if t = 4 then 0b0100 else 0b010
    let s :=
      if t = 2 ∧ 255 < ocr then (32, u32sub1 (fcpu / f2 / 32), 0b011)
      else (8, ocr, pb)
    if s.2.1 ≤ 255 then s
    else
      let ocr := u32sub1 (fcpu / f2 / 64)
      let pb := if t = 0 then 0b011 else if t = 4 then 0b0111 else 0b100
      let s :=
        if t = 2 ∧ 255 < ocr then (128, u32sub1 (fcpu / f2 / 128), 0b101)
        else (64, ocr, pb)
      if s.2.1 ≤ 255 then s
      else
        let ocr := u32sub1 (fcpu / f2 / 256)
        let pb := if t = 0 then 0b100 else if t = 4 then 0b1001 else 0b110
        if ocr ≤ 255 then (256, ocr, pb)
        else (1024, u32sub1 (fcpu / f2 / 1024),
              if t = 0 then 0b101 else if t = 4 then 0b1011 else 0b111)

/-- The prescaler selection of `tune_playnote` for the 16-bit timers
(Playtune.cpp lines 550-557): ck/1 or ck/64. -/
def cascade16 (fcpu f2 : Nat) : Nat × Nat × Nat :=
  let ocr := u32sub1 (fcpu / f2)
  if ocr ≤ 65535 then (1, ocr, 0b001)
  else (64, u32sub1 (fcpu / f2 / 64), 0b011)

/-- The ordered prescale-divisor candidate list of the spec, per timer:
timer 2 offers 1,8,32,64,128,256,1024; timers 0 and the 10-bit timer 4 offer
1,8,64,256,1024; the 16-bit timers offer 1,64. -/
def divisorMenu (t : Nat) (eightBit : Bool) : List Nat :=
  if eightBit then
    if t = 2 then [1, 8, 32, 64, 128, 256, 1024] else [1, 8, 64, 256, 1024]
  else [1, 64]

/-- Modelled from the words of the spec, for comparison with the source cascade:
the smallest divisor `p` in the ordered candidate list such that
`F / (p * f2) - 1` fits in the register (`≤ maxReg`); if none fits, the
largest (last) divisor of the list. -/
def specDivisor (cands : List Nat) (maxReg fcpu f2 : Nat) : Nat :=
  match cands.find? (fun p => fcpu / (p * f2) - 1 ≤ maxReg) with
  | some p => p
  | none => (cands.getLast?).getD 1

/-- The engine state: the file-scope mutable variables of Playtune.cpp.
`score_start` and `score_cursor` are indices into the score byte list.
`timerTCCRB` holds the prescaler bits last or-ed into TCCRxB, `timerOCR` the
value last written to the output-compare register of the timer, `timerIntrEnabled`
the OCIExA bit of TIMSKx, and `pinLevel` the level of the output pin attached
to each timer; all four are indexed by the timer number 0..5.  `ub` records
that an out-of-bounds read of `tune_pin_to_timer_PGM` happened (undefined
behavior in the C program). -/
structure Engine where
  tune_playing : Bool
  score_start : Nat
  score_cursor : Nat
  volume_present : Bool
  wait_timer_frequency2 : Nat
  wait_timer_playing : Bool
  wait_toggle_count : Nat
  _tune_num_chans : Nat
  _tune_pins : List Nat
  timerCTC : Nat → Bool
  timerTCCRB : Nat → Option Nat
  timerOCR : Nat → Option Nat
  timerIntrEnabled : Nat → Bool
  pinLevel : Nat → Bool
  ub : Bool

/-- Power-on state: everything cleared, no channels initialized. -/
def mkEngine : Engine :=
  { tune_playing := false
    score_start := 0
    score_cursor := 0
    volume_present := false   -- ASSUME_VOLUME = 0
    wait_timer_frequency2 := 0
    wait_timer_playing := false
    wait_toggle_count := 0
    _tune_num_chans := 0
    _tune_pins := List.replicate 6 0
    timerCTC := fun _ => false
    timerTCCRB := fun _ => none
    timerOCR := fun _ => none
    timerIntrEnabled := fun _ => false
    pinLevel := fun _ => false
    ub := false }

/-- Models `pgm_read_byte(score + i)`: a byte read from the score. -/
def readByte (score : List Nat) (i : Nat) : Nat := u8 (score.getD i 0)

/-- The register-application tail of `tune_playnote` (lines 536-566 for
TCCRxB and 568-622 for OCR / TCNT / TIMSKx of Playtune.cpp): install the
prescaler bits and compare value, enable the compare interrupt, and for
timer 1 also record the new wait-timer frequency and that it is sounding. -/
def applyTimerConfig (e : Engine) (t ocrReg bits f2 : Nat) : Engine :=
  { e with
    timerTCCRB := fun u => if u = t then some bits else e.timerTCCRB u
    timerOCR := fun u => if u = t then some ocrReg else e.timerOCR u
    timerIntrEnabled := fun u => if u = t then true else e.timerIntrEnabled u
    wait_timer_frequency2 := if t = 1 then f2 else e.wait_timer_frequency2
    wait_timer_playing := if t = 1 then true else e.wait_timer_playing }

/-- Models `tune_playnote(chan, note)` (Playtune.cpp lines 479-624): guarded by
`chan < _tune_num_chans`; clamps notes above 127 to 127; rejects notes below
the clock floor on 8-bit-class timers; otherwise runs the prescaler cascade
and applies the configuration.  For the ATmega32U4 10-bit timer 4 the value
written to OCR4C is `ocr / 2 + 1`. -/
def tune_playnote (p : Platform) (e : Engine) (chan note : Nat) : Engine :=
  if chan < e._tune_num_chans then
    let t := p.timers.getD chan 0
    let note := if 127 < note then 127 else note
    let f2 := freqOf note
    if is8bitClass p t then
      if note < eightBitFloor p.fcpu then e
      else
        let r := cascade8 t p.fcpu f2
        let ocrReg := if p.m32u4 && t == 4 then u8 (r.2.1 / 2 + 1) else u8 r.2.1
        applyTimerConfig e t ocrReg r.2.2 f2
    else
      let r := cascade16 p.fcpu f2
      applyTimerConfig e t (u16 r.2.1) r.2.2 f2
  else e

/-- Models `tune_stopnote(chan)` (Playtune.cpp lines 630-674): reads the timer
allocation table at `chan` with no bounds or channel-count check (an index at
or past `AVAILABLE_TIMERS` is an out-of-bounds flash read, marked `ub`); for
timer 1 the interrupt is left running and only `wait_timer_playing` is
cleared; for the other timers the compare interrupt is disabled; in all
cases the pin is driven low. -/
def tune_stopnote (p : Platform) (e : Engine) (chan : Nat) : Engine :=
  match p.timers.get? chan with
  | none => { e with ub := true }
  | some t =>
    if t = 1 then
      { e with
        wait_timer_playing := false
        pinLevel := fun u => if u = 1 then false else e.pinLevel u }
    else
      { e with
        timerIntrEnabled := fun u => if u = t then false else e.timerIntrEnabled u
        pinLevel := fun u => if u = t then false else e.pinLevel u }

/-- One iteration body of the timer setup in `tune_initchan`: put the timer in CTC
mode and, for timer 1, exercise it once with middle C so the wait/delay
frequency is defined (Playtune.cpp lines 402-471). -/
def initTimer (p : Platform) (e : Engine) (t : Nat) : Engine :=
  let e := { e with timerCTC := fun u => if u = t then true else e.timerCTC u }
  if t = 1 then tune_stopnote p (tune_playnote p e 0 60) 0 else e

namespace Playtune

/-- Models `Playtune::tune_initchan(pin)` (Playtune.cpp lines 390-473): when the
channel count is below `AVAILABLE_TIMERS`, record the pin, bump the count and
configure the next timer of the allocation table; otherwise do nothing. -/
def tune_initchan (p : Platform) (e : Engine) (pin : Nat) : Engine :=
  if e._tune_num_chans < p.timers.length then
    let t := p.timers.getD e._tune_num_chans 0
    let e := { e with
      _tune_pins := e._tune_pins.set e._tune_num_chans pin
      _tune_num_chans := e._tune_num_chans + 1 }
    initTimer p e t
  else e

/-- Models `Playtune::tune_stopscore()` (Playtune.cpp lines 753-758): stop the note
of every initialized channel, then clear `tune_playing`. -/
def tune_stopscore (p : Platform) (e : Engine) : Engine :=
  let e := (List.range e._tune_num_chans).foldl (fun e i => tune_stopnote p e i) e
  { e with tune_playing := false }

end Playtune

/-- How one invocation of `tune_stepscore` returned: by arming a wait, by
executing a Stop command, or by running out of modelling fuel (the C loop
has no fuel; a run that returns within fuel is exact). -/
inductive StepOutcome where
  | wait : StepOutcome
  | stop : StepOutcome
  | fuelOut : StepOutcome
deriving Repr, DecidableEq

/-- Models `tune_stepscore()` (Playtune.cpp lines 699-747): execute score commands
until a wait command is consumed or a Stop command clears `tune_playing`.
Each loop iteration consumes one unit of fuel. -/
def tune_stepscore (p : Platform) (score : List Nat) :
    Nat → Engine → Engine × StepOutcome
  | 0, e => (e, .fuelOut)
  | fuel + 1, e =>
    let cmd := readByte score e.score_cursor
    let e := { e with score_cursor := e.score_cursor + 1 }
    if cmd < 0x80 then
      -- wait count in msec: 15-bit big-endian
      let duration := cmd * 256 + readByte score e.score_cursor
      let e := { e with score_cursor := e.score_cursor + 1 }
      let c := u32 (e.wait_timer_frequency2 * duration + 500) / 1000
      let c := if c = 0 then 1 else c
      ({ e with wait_toggle_count := c }, .wait)
    else
      let opcode := cmd &&& 0xf0
      let chan := cmd &&& 0x0f
      if opcode = 0x80 then
        tune_stepscore p score fuel (tune_stopnote p e chan)
      else if opcode = 0x90 then
        let note := readByte score e.score_cursor
        let e := { e with score_cursor := e.score_cursor + 1 }
        let e := if e.volume_present
                 then { e with score_cursor := e.score_cursor + 1 } else e
        tune_stepscore p score fuel (tune_playnote p e chan note)
      else if opcode = 0xc0 then
        tune_stepscore p score fuel { e with score_cursor := e.score_cursor + 1 }
      else if opcode = 0xe0 then
        tune_stepscore p score fuel { e with score_cursor := e.score_start }
      else if opcode = 0xf0 then
        ({ e with tune_playing := false }, .stop)
      else
        tune_stepscore p score fuel e

namespace Playtune

/-- Models `Playtune::tune_playscore(score)` (Playtune.cpp lines 680-697): stop any
current playback, parse the optional `P,t` header (bit 0x80 of
flag byte 1 selects velocity-byte presence, and `hdr_length` bytes are
skipped), reset the cursor, run the initial `tune_stepscore`, and finally
set `tune_playing`. -/
def tune_playscore (p : Platform) (fuel : Nat) (e : Engine)
    (score : List Nat) : Engine :=
  let e := if e.tune_playing then tune_stopscore p e else e
  let e := { e with score_start := 0, volume_present := false }  -- ASSUME_VOLUME
  let e :=
    if readByte score 0 = 80 ∧ readByte score 1 = 116 then  -- id1 = P, id2 = t
      { e with
        volume_present := readByte score 3 &&& 0x80 != 0
        score_start := e.score_start + readByte score 2 }
    else e
  let e := { e with score_cursor := e.score_start }
  let e := (tune_stepscore p score fuel e).1
  { e with tune_playing := true }

end Playtune

/-- One iteration of the loop of `Playtune::tune_stopchans` (Playtune.cpp
lines 793-827): disable the compare interrupt of the timer of the channel (for
every timer, the wait timer 1 included) and drive its pin low. -/
def stopChanOne (p : Platform) (e : Engine) (chan : Nat) : Engine :=
  let t := p.timers.getD chan 0
  { e with
    timerIntrEnabled := fun u => if u = t then false else e.timerIntrEnabled u
    pinLevel := fun u => if u = t then false else e.pinLevel u }

namespace Playtune

/-- Models `Playtune::tune_stopchans()` (Playtune.cpp lines 789-829): for every
initialized channel disable the interrupt of its timer and drive its pin low,
then reset the channel count to zero.  `tune_playing` is not touched. -/
def tune_stopchans (p : Platform) (e : Engine) : Engine :=
  let e2 := (List.range e._tune_num_chans).foldl (stopChanOne p) e
  { e2 with _tune_num_chans := 0 }

end Playtune

/-- A Uno-class engine with all three channels initialized on pins 9/10/11,
used as concrete input for witnesses and counterexamples. -/
def engUno3 : Engine :=
  { mkEngine with _tune_num_chans := 3, _tune_pins := [9, 10, 11, 0, 0, 0] }

/-- The Uno-class engine whose wait timer last sounded middle C
(frequency2 = 523), as after the reference note played by `tune_initchan`. -/
def engFreq523 : Engine := { engUno3 with wait_timer_frequency2 := 523 }

/-- A Uno-class engine whose score carries velocity bytes. -/
def engVol : Engine := { engUno3 with volume_present := true }

/-- A Uno-class engine in the middle of playback. -/
def engPlaying : Engine := { engUno3 with tune_playing := true }

/-- The delay-counter rescale of `ISR(TIMER1_COMPA_vect)` (Playtune.cpp lines
855-863), run when a step changed the frequency of the wait timer while a
`tune_delay` was outstanding.  `d` is `delay_toggle_count` (32-bit),
`f2new` is `wait_timer_frequency2` and `f2old` is
`wait_timer_old_frequency2` (both 16-bit).  C operator precedence makes
`delay_toggle_count + 4 >> 3` parse as `(delay_toggle_count + 4) >> 3`. -/
def delayRescale (d f2new f2old : Nat) : Nat :=
  if 0x20000 ≤ d ∧ 0x4000 ≤ f2new then
    u32 (u32 (u32 (d + 4) / 8 * (u16 (f2new + 2) / 4)) / f2old * 32)
  else
    u32 (u32 (d * f2new) / f2old)

/-! Section: Helper lemmas -/

theorem readByte_lt (score : List Nat) (i : Nat) : readByte score i < 256 :=
  Nat.mod_lt _ (by norm_num)

theorem eightBitFloor_le (fcpu : Nat) : eightBitFloor fcpu ≤ 24 := by
  unfold eightBitFloor; split <;> norm_num

theorem tune_playnote_frame (p : Platform) (e : Engine) (chan note : Nat) :
    (tune_playnote p e chan note).volume_present = e.volume_present
    ∧ (tune_playnote p e chan note).score_start = e.score_start
    ∧ (tune_playnote p e chan note).score_cursor = e.score_cursor
    ∧ (tune_playnote p e chan note)._tune_num_chans = e._tune_num_chans
    ∧ (tune_playnote p e chan note)._tune_pins = e._tune_pins
    ∧ (tune_playnote p e chan note).timerCTC = e.timerCTC
    ∧ (tune_playnote p e chan note).tune_playing = e.tune_playing := by
  unfold tune_playnote applyTimerConfig
  refine ⟨?_, ?_, ?_, ?_, ?_, ?_, ?_⟩ <;> dsimp only <;> (repeat' split) <;> rfl

theorem tune_stopnote_frame (p : Platform) (e : Engine) (chan : Nat) :
    (tune_stopnote p e chan).volume_present = e.volume_present
    ∧ (tune_stopnote p e chan).score_start = e.score_start
    ∧ (tune_stopnote p e chan).score_cursor = e.score_cursor
    ∧ (tune_stopnote p e chan)._tune_num_chans = e._tune_num_chans
    ∧ (tune_stopnote p e chan)._tune_pins = e._tune_pins
    ∧ (tune_stopnote p e chan).timerCTC = e.timerCTC
    ∧ (tune_stopnote p e chan).tune_playing = e.tune_playing := by
  unfold tune_stopnote
  refine ⟨?_, ?_, ?_, ?_, ?_, ?_, ?_⟩ <;> dsimp only <;> (repeat' split) <;> rfl

/-- Lemma: `tune_stepscore` never writes `volume_present` or `score_start`. -/
theorem tune_stepscore_preserves (p : Platform) (score : List Nat) :
    ∀ fuel e, (tune_stepscore p score fuel e).1.volume_present = e.volume_present
      ∧ (tune_stepscore p score fuel e).1.score_start = e.score_start := by
  intro fuel
  induction fuel with
  | zero => intro e; exact ⟨rfl, rfl⟩
  | succ n ih =>
    intro e
    simp only [tune_stepscore]
    split
    · exact ⟨rfl, rfl⟩
    · split
      · exact ⟨(ih _).1.trans (tune_stopnote_frame _ _ _).1,
               (ih _).2.trans (tune_stopnote_frame _ _ _).2.1⟩
      · split
        · constructor
          · rw [(ih _).1, (tune_playnote_frame _ _ _ _).1]
            split <;> rfl
          · rw [(ih _).2, (tune_playnote_frame _ _ _ _).2.1]
            split <;> rfl
        · split
          · exact ⟨(ih _).1, (ih _).2⟩
          · split
            · exact ⟨(ih _).1, (ih _).2⟩
            · split
              · exact ⟨rfl, rfl⟩
              · exact ⟨(ih _).1, (ih _).2⟩

/-! Section: C1 -/

/-- C1: for every playable note (MIDI 0-127, at or above the 8-bit floor when
the target is an 8-bit timer), the prescaler cascade of `tune_playnote`
selects the smallest prescale divisor `p` from the ordered candidate list of
that timer (timer 2: 1,8,32,64,128,256,1024; timers 0 and the 10-bit
timer 4: 1,8,64,256,1024; 16-bit timers: 1,64) such that
`F_CPU / (p * frequency2) - 1` fits the register (255 for 8-bit, 65535 for
16-bit), and the largest divisor when none fits; verified at both clock
classes of the spec (8 MHz and 16 MHz). -/
theorem playnote_prescale_smallest_fit :
    (∀ fcpu t, (fcpu = 8000000 ∨ fcpu = 16000000) → (t = 0 ∨ t = 2 ∨ t = 4) →
      ∀ note, note < 128 → eightBitFloor fcpu ≤ note →
        (cascade8 t fcpu (freqOf note)).1
          = specDivisor (divisorMenu t true) 255 fcpu (freqOf note))
    ∧ (∀ fcpu, (fcpu = 8000000 ∨ fcpu = 16000000) →
        ∀ note, note < 128 →
          (cascade16 fcpu (freqOf note)).1
            = specDivisor (divisorMenu 1 false) 65535 fcpu (freqOf note)) := by
  constructor
  · rintro fcpu t (rfl | rfl) (rfl | rfl | rfl) <;> decide
  · rintro fcpu (rfl | rfl) <;> decide

/-- Witness for C1: timer 2 at 16 MHz playing note 69 (A440). -/
theorem playnote_prescale_smallest_fit_witness :
    eightBitFloor 16000000 ≤ 69 ∧
      (cascade8 2 16000000 (freqOf 69)).1
        = specDivisor (divisorMenu 2 true) 255 16000000 (freqOf 69) :=
  ⟨by decide,
   playnote_prescale_smallest_fit.1 16000000 2 (Or.inr rfl)
     (Or.inr (Or.inl rfl)) 69 (by decide) (by decide)⟩

/-! Section: C2 -/

/-- Counterexample to C2: note 200 (> 127) on initialized channel 1 (timer 2)
of a Uno-class engine is not silently ignored: `tune_playnote` clamps it to
127 and applies a timer configuration (prescaler ck/8, compare value 78,
interrupt enabled), so sound is produced.  The claim says no timer
configuration is applied for notes above 127. -/
theorem playnote_note_above_127_not_ignored :
    (tune_playnote unoPlatform engUno3 1 200).timerOCR 2 = some 78
    ∧ (tune_playnote unoPlatform engUno3 1 200).timerTCCRB 2 = some 0b010
    ∧ (tune_playnote unoPlatform engUno3 1 200).timerIntrEnabled 2 = true := by
  constructor
  · rfl
  constructor
  · rfl
  · rfl

/-- C2 as amended: a note value above 127 is clamped to 127, so the engine
behaves exactly as if note 127 had been requested (a configuration for note
127 is applied on an initialized channel); it is not rejected. -/
theorem playnote_note_above_127_clamped (p : Platform) (e : Engine)
    (chan note : Nat) (h : 127 < note) :
    tune_playnote p e chan note = tune_playnote p e chan 127 := by
  unfold tune_playnote
  rw [if_pos h, if_neg (lt_irrefl 127)]

/-- Witness for the amended C2: note 200 behaves as note 127. -/
theorem playnote_note_above_127_clamped_witness :
    (127 : Nat) < 200 ∧
      tune_playnote unoPlatform engUno3 1 200
        = tune_playnote unoPlatform engUno3 1 127 :=
  ⟨by decide, playnote_note_above_127_clamped unoPlatform engUno3 1 200 (by decide)⟩

/-! Section: C3 -/

/-- Counterexample to C3: for the score consisting of the single Stop command
0xF0, the initial step inside `tune_playscore` does reach the Stop (second
and third conjuncts), yet `tune_playscore` afterwards unconditionally sets
`tune_playing` back to true (first conjunct), because the assignment
`tune_playing = true` comes after the initial `tune_stepscore()` call.  The
claim asserts `tune_playing` is false in this situation. -/
theorem playscore_initial_stop_leaves_playing_true :
    (Playtune.tune_playscore unoPlatform 4 engUno3 [0xF0]).tune_playing = true
    ∧ (tune_stepscore unoPlatform [0xF0] 4 engUno3).2 = StepOutcome.stop
    ∧ (tune_stepscore unoPlatform [0xF0] 4 engUno3).1.tune_playing = false :=
  ⟨rfl, rfl, rfl⟩

/-- C3 as amended: immediately after `tune_playscore` returns,
`tune_playing` is always true — even when the initial step inside it reached
a Stop command, since the flag is set after that step; and whenever a step
run from the interrupt routine ends by executing a Stop command (0xF0),
`tune_playing` is false afterwards, so `tune_playing` reports completion. -/
theorem playscore_playing_flag :
    (∀ p fuel e score,
      (Playtune.tune_playscore p fuel e score).tune_playing = true)
    ∧ (∀ p score fuel e, (tune_stepscore p score fuel e).2 = StepOutcome.stop →
        (tune_stepscore p score fuel e).1.tune_playing = false) := by
  constructor
  · intro p fuel e score; rfl
  · intro p score fuel
    induction fuel with
    | zero => intro e h; simp [tune_stepscore] at h
    | succ n ih =>
      intro e
      simp only [tune_stepscore]
      split
      · intro h; simp at h
      · split
        · exact ih _
        · split
          · exact ih _
          · split
            · exact ih _
            · split
              · exact ih _
              · split
                · intro _; rfl
                · exact ih _

/-- Witness for the amended C3. -/
theorem playscore_playing_flag_witness :
    (tune_stepscore unoPlatform [0xF0] 1 mkEngine).2 = StepOutcome.stop
    ∧ (tune_stepscore unoPlatform [0xF0] 1 mkEngine).1.tune_playing = false :=
  ⟨rfl, playscore_playing_flag.2 unoPlatform [0xF0] 1 mkEngine rfl⟩

/-! Section: C4 -/

/-- C4: a wait command with 15-bit big-endian millisecond value `ms` sets
`wait_toggle_count` to `(freq2 * ms + 500) / 1000` — the integer rounding of
`freq2 * ms / 1000` — and to 1 when that rounds to 0, so an armed wait count
is never zero. -/
theorem stepscore_wait_conversion (p : Platform) (score : List Nat)
    (fuel : Nat) (e : Engine)
    (hcmd : readByte score e.score_cursor < 0x80)
    (hf2 : e.wait_timer_frequency2 < 65536) :
    (tune_stepscore p score (fuel + 1) e).1.wait_toggle_count
      = (if (e.wait_timer_frequency2 * (readByte score e.score_cursor * 256
              + readByte score (e.score_cursor + 1)) + 500) / 1000 = 0 then 1
         else (e.wait_timer_frequency2 * (readByte score e.score_cursor * 256
              + readByte score (e.score_cursor + 1)) + 500) / 1000)
    ∧ (tune_stepscore p score (fuel + 1) e).2 = StepOutcome.wait
    ∧ 1 ≤ (tune_stepscore p score (fuel + 1) e).1.wait_toggle_count := by
  have hb2 : readByte score (e.score_cursor + 1) < 256 := readByte_lt _ _
  have hms : readByte score e.score_cursor * 256
      + readByte score (e.score_cursor + 1) ≤ 32767 := by omega
  have hprod : e.wait_timer_frequency2 * (readByte score e.score_cursor * 256
      + readByte score (e.score_cursor + 1)) ≤ 65535 * 32767 :=
    Nat.mul_le_mul (by omega) hms
  have hnomod : e.wait_timer_frequency2 * (readByte score e.score_cursor * 256
      + readByte score (e.score_cursor + 1)) + 500 < 4294967296 := by omega
  simp only [tune_stepscore]
  rw [if_pos hcmd]
  dsimp only
  unfold u32
  rw [Nat.mod_eq_of_lt hnomod]
  refine ⟨rfl, rfl, ?_⟩
  split <;> omega

/-- Witness for C4: wait 0x07D0 = 2000 ms at frequency2 = 523. -/
theorem stepscore_wait_conversion_witness :
    (readByte [0x07, 0xD0] engFreq523.score_cursor < 0x80
      ∧ engFreq523.wait_timer_frequency2 < 65536)
    ∧ (tune_stepscore unoPlatform [0x07, 0xD0] 1 engFreq523).1.wait_toggle_count
        = (if (engFreq523.wait_timer_frequency2
                * (readByte [0x07, 0xD0] engFreq523.score_cursor * 256
                  + readByte [0x07, 0xD0] (engFreq523.score_cursor + 1)) + 500)
              / 1000 = 0 then 1
           else (engFreq523.wait_timer_frequency2
                * (readByte [0x07, 0xD0] engFreq523.score_cursor * 256
                  + readByte [0x07, 0xD0] (engFreq523.score_cursor + 1)) + 500)
              / 1000)
      ∧ (tune_stepscore unoPlatform [0x07, 0xD0] 1 engFreq523).2
          = StepOutcome.wait
      ∧ 1 ≤ (tune_stepscore unoPlatform [0x07, 0xD0] 1 engFreq523).1.wait_toggle_count :=
  ⟨⟨by decide, by decide⟩,
   stepscore_wait_conversion unoPlatform [0x07, 0xD0] 0 engFreq523
     (by decide) (by decide)⟩

/-! Section: C5 -/

/-- C5: a note below the clock-dependent floor (12 when F_CPU <= 8 MHz, 24
otherwise) aimed at an 8-bit-class timer makes `tune_playnote` return with
the engine completely untouched: no timer registers are written and no sound
is produced. -/
theorem playnote_below_floor_rejected (p : Platform) (e : Engine)
    (chan note : Nat) (hchan : chan < e._tune_num_chans)
    (h8 : is8bitClass p (p.timers.getD chan 0) = true)
    (hfloor : note < eightBitFloor p.fcpu) :
    tune_playnote p e chan note = e := by
  have hclamp : ¬ 127 < note := by
    have := eightBitFloor_le p.fcpu
    omega
  unfold tune_playnote
  rw [if_pos hchan, if_neg hclamp]
  simp only [h8, eq_self_iff_true, if_true, if_pos hfloor]

/-- Witness for C5: note 5 on channel 1 (timer 2) of the Uno engine. -/
theorem playnote_below_floor_rejected_witness :
    (1 < engUno3._tune_num_chans
      ∧ is8bitClass unoPlatform (unoPlatform.timers.getD 1 0) = true
      ∧ 5 < eightBitFloor unoPlatform.fcpu)
    ∧ tune_playnote unoPlatform engUno3 1 5 = engUno3 :=
  ⟨⟨by decide, by decide, by decide⟩,
   playnote_below_floor_rejected unoPlatform engUno3 1 5 (by decide) (by decide)
     (by decide)⟩

set_option maxRecDepth 4096 in
theorem byte_opcode_0x90 :
    ∀ c, c < 256 → c &&& 0xf0 = 0x90 → ¬ c < 0x80 ∧ c &&& 0xf0 ≠ 0x80 := by
  decide

set_option maxRecDepth 4096 in
theorem byte_opcode_0x80 : ∀ c, c < 256 → c &&& 0xf0 = 0x80 → ¬ c < 0x80 := by
  decide

/-! Section: C7 -/

/-- C7: a score starting with the magic bytes P,t has `hdr_length` (byte 3)
bytes skipped before interpretation and takes velocity-byte presence from bit
0x80 of flag byte 1 (byte 4); a score without the magic is not skipped and
gets the compile-time default (`ASSUME_VOLUME = 0`, i.e. no velocity bytes);
and a note-on command consumes exactly one extra byte — three bytes instead
of two — precisely when `volume_present` is set. -/
theorem playscore_header_velocity :
    (∀ (p : Platform) fuel (e : Engine) score,
      readByte score 0 = 80 → readByte score 1 = 116 →
        (Playtune.tune_playscore p fuel e score).volume_present
            = (readByte score 3 &&& 0x80 != 0)
          ∧ (Playtune.tune_playscore p fuel e score).score_start
            = readByte score 2)
    ∧ (∀ (p : Platform) fuel (e : Engine) score,
        ¬ (readByte score 0 = 80 ∧ readByte score 1 = 116) →
          (Playtune.tune_playscore p fuel e score).volume_present = false
          ∧ (Playtune.tune_playscore p fuel e score).score_start = 0)
    ∧ (∀ (p : Platform) score fuel (e : Engine),
        readByte score e.score_cursor &&& 0xf0 = 0x90 →
          tune_stepscore p score (fuel + 1) e
            = tune_stepscore p score fuel
                (tune_playnote p
                  { e with score_cursor :=
                      e.score_cursor + (if e.volume_present then 3 else 2) }
                  (readByte score e.score_cursor &&& 0x0f)
                  (readByte score (e.score_cursor + 1)))) := by
  refine ⟨?_, ?_, ?_⟩
  · intro p fuel e score h1 h2
    unfold Playtune.tune_playscore
    dsimp only
    rw [if_pos (And.intro h1 h2)]
    constructor
    · rw [(tune_stepscore_preserves p score fuel _).1]
    · rw [(tune_stepscore_preserves p score fuel _).2]
      dsimp only
      exact Nat.zero_add _
  · intro p fuel e score hn
    unfold Playtune.tune_playscore
    dsimp only
    rw [if_neg hn]
    exact ⟨(tune_stepscore_preserves p score fuel _).1,
           (tune_stepscore_preserves p score fuel _).2⟩
  · intro p score fuel e hop
    obtain ⟨k1, k2⟩ := byte_opcode_0x90 _ (readByte_lt score e.score_cursor) hop
    simp only [tune_stepscore]
    rw [if_neg k1, if_neg k2, if_pos hop]
    cases hvp : e.volume_present <;> rfl

/-- Witness for C7: the `P,t,6,0x80,0,1` header of the spec, a headerless score,
and note-on consumption with `volume_present` set. -/
theorem playscore_header_velocity_witness :
    ((Playtune.tune_playscore unoPlatform 1 mkEngine
        [80, 116, 6, 0x80, 0, 1, 0xF0]).volume_present
      = (readByte [80, 116, 6, 0x80, 0, 1, 0xF0] 3 &&& 0x80 != 0)
      ∧ (Playtune.tune_playscore unoPlatform 1 mkEngine
          [80, 116, 6, 0x80, 0, 1, 0xF0]).score_start
        = readByte [80, 116, 6, 0x80, 0, 1, 0xF0] 2)
    ∧ ((Playtune.tune_playscore unoPlatform 1 mkEngine
          [0x90, 60, 0xF0]).volume_present = false
      ∧ (Playtune.tune_playscore unoPlatform 1 mkEngine
          [0x90, 60, 0xF0]).score_start = 0)
    ∧ tune_stepscore unoPlatform [0x90, 60, 100, 0xF0] 2 engVol
        = tune_stepscore unoPlatform [0x90, 60, 100, 0xF0] 1
            (tune_playnote unoPlatform
              { engVol with score_cursor :=
                  engVol.score_cursor + (if engVol.volume_present then 3 else 2) }
              (readByte [0x90, 60, 100, 0xF0] engVol.score_cursor &&& 0x0f)
              (readByte [0x90, 60, 100, 0xF0] (engVol.score_cursor + 1))) :=
  ⟨playscore_header_velocity.1 unoPlatform 1 mkEngine
     [80, 116, 6, 0x80, 0, 1, 0xF0] (by decide) (by decide),
   playscore_header_velocity.2.1 unoPlatform 1 mkEngine
     [0x90, 60, 0xF0] (by decide),
   playscore_header_velocity.2.2 unoPlatform [0x90, 60, 100, 0xF0] 1 engVol
     (by decide)⟩

/-! Section: C8 -/

/-- C8: `tune_initchan` calls at or beyond `AVAILABLE_TIMERS` are pure
no-ops — the engine is returned unchanged — while each call below the limit
records the pin at the current channel index, increments the channel count
by one, and configures (CTC mode) the next timer of the fixed allocation
table. -/
theorem initchan_saturation :
    (∀ (p : Platform) (e : Engine) pin,
      p.timers.length ≤ e._tune_num_chans →
        Playtune.tune_initchan p e pin = e)
    ∧ (∀ (p : Platform) (e : Engine) pin,
        e._tune_num_chans < p.timers.length →
          (Playtune.tune_initchan p e pin)._tune_num_chans
              = e._tune_num_chans + 1
            ∧ (Playtune.tune_initchan p e pin)._tune_pins
              = e._tune_pins.set e._tune_num_chans pin
            ∧ (Playtune.tune_initchan p e pin).timerCTC
                (p.timers.getD e._tune_num_chans 0) = true) := by
  constructor
  · intro p e pin h
    unfold Playtune.tune_initchan
    rw [if_neg (Nat.not_lt.mpr h)]
  · intro p e pin h
    unfold Playtune.tune_initchan initTimer
    rw [if_pos h]
    dsimp only
    by_cases ht : p.timers.getD e._tune_num_chans 0 = 1
    · rw [if_pos ht]
      refine ⟨?_, ?_, ?_⟩
      · rw [(tune_stopnote_frame _ _ _).2.2.2.1,
            (tune_playnote_frame _ _ _ _).2.2.2.1]
      · rw [(tune_stopnote_frame _ _ _).2.2.2.2.1,
            (tune_playnote_frame _ _ _ _).2.2.2.2.1]
      · rw [(tune_stopnote_frame _ _ _).2.2.2.2.2.1,
            (tune_playnote_frame _ _ _ _).2.2.2.2.2.1]
        dsimp only
        rw [if_pos rfl]
    · rw [if_neg ht]
      refine ⟨rfl, rfl, ?_⟩
      dsimp only
      rw [if_pos rfl]

/-- Witness for C8: the fourth call on a Uno-class engine is a no-op; the
first call on a fresh engine records pin 9 on timer 1. -/
theorem initchan_saturation_witness :
    Playtune.tune_initchan unoPlatform engUno3 5 = engUno3
    ∧ ((Playtune.tune_initchan unoPlatform mkEngine 9)._tune_num_chans
          = mkEngine._tune_num_chans + 1
        ∧ (Playtune.tune_initchan unoPlatform mkEngine 9)._tune_pins
          = mkEngine._tune_pins.set mkEngine._tune_num_chans 9
        ∧ (Playtune.tune_initchan unoPlatform mkEngine 9).timerCTC
            (unoPlatform.timers.getD mkEngine._tune_num_chans 0) = true) :=
  ⟨initchan_saturation.1 unoPlatform engUno3 5 (by decide),
   initchan_saturation.2 unoPlatform mkEngine 9 (by decide)⟩

/-! Section: C9 -/

/-- C9: the interpreter dispatches every note-off command (opcode 0x80, any
low nibble 0..15) to `tune_stopnote` unconditionally — no channel-count
guard appears in the dispatch, unlike note-on whose guard sits inside
`tune_playnote` — and `tune_stopnote` itself reads the fixed
timer-allocation table at the raw channel index, which is an out-of-bounds
read (`ub`) for every index at or beyond `AVAILABLE_TIMERS`. -/
theorem stepscore_stopnote_unguarded :
    (∀ (p : Platform) score fuel (e : Engine),
      readByte score e.score_cursor &&& 0xf0 = 0x80 →
        tune_stepscore p score (fuel + 1) e
          = tune_stepscore p score fuel
              (tune_stopnote p { e with score_cursor := e.score_cursor + 1 }
                (readByte score e.score_cursor &&& 0x0f)))
    ∧ (∀ (p : Platform) (e : Engine) chan,
        p.timers.length ≤ chan → (tune_stopnote p e chan).ub = true) := by
  constructor
  · intro p score fuel e hop
    have k1 := byte_opcode_0x80 _ (readByte_lt score e.score_cursor) hop
    simp only [tune_stepscore]
    rw [if_neg k1, if_pos hop]
  · intro p e chan h
    unfold tune_stopnote
    rw [List.get?_eq_none.mpr h]

/-- Witness for C9: command 0x8c (note-off, channel 12) on a Uno engine with
zero initialized channels is still dispatched, and channel 12 is past the
3-entry allocation table. -/
theorem stepscore_stopnote_unguarded_witness :
    tune_stepscore unoPlatform [0x8c, 0xF0] 2 mkEngine
      = tune_stepscore unoPlatform [0x8c, 0xF0] 1
          (tune_stopnote unoPlatform
            { mkEngine with score_cursor := mkEngine.score_cursor + 1 }
            (readByte [0x8c, 0xF0] mkEngine.score_cursor &&& 0x0f))
    ∧ (tune_stopnote unoPlatform mkEngine 12).ub = true :=
  ⟨stepscore_stopnote_unguarded.1 unoPlatform [0x8c, 0xF0] 1 mkEngine (by decide),
   stepscore_stopnote_unguarded.2 unoPlatform mkEngine 12 (by decide)⟩

/-! Section: C10 -/

theorem foldl_stop_playing (p : Platform) :
    ∀ (l : List Nat) (e : Engine),
      (l.foldl (stopChanOne p) e).tune_playing = e.tune_playing := by
  intro l
  induction l with
  | nil => intro e; rfl
  | cons x xs ih => intro e; exact ih _

theorem foldl_stop_intr_false (p : Platform) :
    ∀ (l : List Nat) (e : Engine) (t : Nat),
      e.timerIntrEnabled t = false →
        (l.foldl (stopChanOne p) e).timerIntrEnabled t = false := by
  intro l
  induction l with
  | nil => intro e t h; exact h
  | cons x xs ih =>
    intro e t h
    refine ih _ t ?_
    dsimp only [stopChanOne]
    split
    · rfl
    · exact h

theorem foldl_stop_pin_false (p : Platform) :
    ∀ (l : List Nat) (e : Engine) (t : Nat),
      e.pinLevel t = false →
        (l.foldl (stopChanOne p) e).pinLevel t = false := by
  intro l
  induction l with
  | nil => intro e t h; exact h
  | cons x xs ih =>
    intro e t h
    refine ih _ t ?_
    dsimp only [stopChanOne]
    split
    · rfl
    · exact h

theorem foldl_stop_member (p : Platform) :
    ∀ (l : List Nat) (e : Engine) (i : Nat), i ∈ l →
      (l.foldl (stopChanOne p) e).timerIntrEnabled (p.timers.getD i 0) = false
      ∧ (l.foldl (stopChanOne p) e).pinLevel (p.timers.getD i 0) = false := by
  intro l
  induction l with
  | nil => intro e i h; cases h
  | cons x xs ih =>
    intro e i h
    rcases List.mem_cons.mp h with rfl | hx
    · constructor
      · refine foldl_stop_intr_false p xs _ _ ?_
        dsimp only [stopChanOne]
        rw [if_pos rfl]
      · refine foldl_stop_pin_false p xs _ _ ?_
        dsimp only [stopChanOne]
        rw [if_pos rfl]
    · exact ih _ i hx

/-- C10: `tune_stopchans` disables the compare interrupt of every
initialized timer (the Wait Timer included), drives every
initialized pin low and resets the channel count to zero, but
leaves `tune_playing` exactly as it was — so a caller polling `is_playing`
during playback keeps reading true even though score stepping can no longer
occur. -/
theorem stopchans_frame (p : Platform) (e : Engine) :
    (Playtune.tune_stopchans p e).tune_playing = e.tune_playing
    ∧ (Playtune.tune_stopchans p e)._tune_num_chans = 0
    ∧ ∀ chan, chan < e._tune_num_chans →
        (Playtune.tune_stopchans p e).timerIntrEnabled
            (p.timers.getD chan 0) = false
        ∧ (Playtune.tune_stopchans p e).pinLevel (p.timers.getD chan 0) = false := by
  unfold Playtune.tune_stopchans
  dsimp only
  refine ⟨foldl_stop_playing p _ e, rfl, ?_⟩
  intro chan hc
  exact foldl_stop_member p _ e chan (List.mem_range.mpr hc)

/-- Witness for C10: stopping a playing Uno engine keeps `tune_playing`
true while timer 2 (channel 1) is disabled and its pin low. -/
theorem stopchans_frame_witness :
    (Playtune.tune_stopchans unoPlatform engPlaying).tune_playing
        = engPlaying.tune_playing
    ∧ (Playtune.tune_stopchans unoPlatform engPlaying)._tune_num_chans = 0
    ∧ ((Playtune.tune_stopchans unoPlatform engPlaying).timerIntrEnabled
          (unoPlatform.timers.getD 1 0) = false
        ∧ (Playtune.tune_stopchans unoPlatform engPlaying).pinLevel
            (unoPlatform.timers.getD 1 0) = false) :=
  ⟨(stopchans_frame unoPlatform engPlaying).1,
   (stopchans_frame unoPlatform engPlaying).2.1,
   (stopchans_frame unoPlatform engPlaying).2.2 1 (by decide)⟩

/-! Section: C6 -/

/-- C6 is a code bug: the unsplit rescale path of `ISR(TIMER1_COMPA_vect)`
overflows 32-bit arithmetic in reachable states, so the delay counter is not
rescaled to `old_count * F2 / F1` within any rounding tolerance.  With
`delay_toggle_count = 1048576` ticks outstanding (a tune_delay of about 42 s
armed while note 127, frequency2 = 25088, sounds on timer 1) and a step that
switches timer 1 to note 123 (frequency2 = 15804 < 0x4000, so the split path
is not taken), the product `1048576 * 15804` wraps mod 2^32 and the code
leaves 146954 ticks instead of the correct 660542 — about 78% of the
remaining wall-clock delay is lost, defeating the overflow-avoidance the
own comment of the code describes. -/
theorem delay_rescale_overflow_bug :
    delayRescale 1048576 15804 25088 = 146954
    ∧ 1048576 * 15804 / 25088 = 660542 := by
  constructor
  · rfl
  · rfl
